import Mathlib

/-!
# simplebot_minesweeper — verification of the spec's claims

Shallow embedding of the Minesweeper chat-bot plugin.  The orchestration
layer (`filter_messages`, `_run_turn`, `mines_play`, `mines_repeat`) is
translated from `src/simplebot_minesweeper/__init__.py`.  The board engine
(class `Board` of the `.game` module) and the storage layer (`.db`) are not
under `src/`; those parts are modelled from the spec, as marked on each
definition.
-/

namespace Mines

/-- ASCII model of the character class used by Python `str.isalpha`. -/
def pyAlphaC (c : Char) : Bool :=
  (65 ≤ c.toNat && c.toNat ≤ 90) || (97 ≤ c.toNat && c.toNat ≤ 122)

/-- ASCII model of the character class used by Python `str.isdigit`. -/
def pyDigitC (c : Char) : Bool :=
  48 ≤ c.toNat && c.toNat ≤ 57

/-- ASCII model of the character class used by Python `str.isalnum`. -/
def pyAlnumC (c : Char) : Bool :=
  pyAlphaC c || pyDigitC c

/-- Model of Python `str.isalnum` (true iff nonempty and all chars alnum). -/
def pyIsAlnum (s : List Char) : Bool :=
  !s.isEmpty && s.all pyAlnumC

/-- Model of Python `str.isalpha`. -/
def pyIsAlpha (s : List Char) : Bool :=
  !s.isEmpty && s.all pyAlphaC

/-- Model of Python `str.isdigit`. -/
def pyIsDigit (s : List Char) : Bool :=
  !s.isEmpty && s.all pyDigitC

/-- Error taxonomy of the board engine (spec §7). -/
inductive MErr where
  | outOfBounds
  | invalidToken
  | corruptState
deriving DecidableEq, Repr

/-- Modelled from the spec: the `Board` entity of the missing `.game` module
(spec §3).  `mines` and `revealed` are row-major lists of length
`width * height`; `adjacentMineCount` is derived from the immutable mine
layout; `startedAt` is the creation timestamp used for scoring. -/
structure Board where
  width : Nat
  height : Nat
  mines : List Bool
  revealed : List Bool
  startedAt : Nat
deriving DecidableEq, Repr

/-- Well-formedness: the cell lists cover the grid exactly. -/
def Board.WF (b : Board) : Prop :=
  b.mines.length = b.width * b.height ∧ b.revealed.length = b.width * b.height

instance (b : Board) : Decidable b.WF := by
  unfold Board.WF; infer_instance

/-- Row-major index of a coordinate. -/
def Board.idx (b : Board) (r c : Nat) : Nat := r * b.width + c

/-- Whether the cell at (r, c) is a mine. -/
def Board.mineAt (b : Board) (r c : Nat) : Bool := b.mines.getD (b.idx r c) false

/-- Whether the cell at (r, c) is revealed. -/
def Board.revealedAt (b : Board) (r c : Nat) : Bool := b.revealed.getD (b.idx r c) false

/-- The 8-neighborhood relation on grid coordinates (Chebyshev distance 1). -/
def isNeighbor (r c r2 c2 : Nat) : Bool :=
  (r2 ≤ r + 1) && (r ≤ r2 + 1) && (c2 ≤ c + 1) && (c ≤ c2 + 1) && !(r2 == r && c2 == c)

/-- In-grid neighbors of a coordinate. -/
def Board.neighbors (b : Board) (r c : Nat) : List (Nat × Nat) :=
  ((List.range b.height).flatMap fun r2 =>
    (List.range b.width).map fun c2 => (r2, c2)).filter fun p => isNeighbor r c p.1 p.2

/-- Modelled from the spec: `adjacentMineCount`, the number of mines among the
up-to-8 grid neighbors (spec §3, §4.1). -/
def Board.adjCount (b : Board) (r c : Nat) : Nat :=
  (b.neighbors r c).countP fun p => b.mineAt p.1 p.2

/-- Set the cell at (r, c) to Revealed. -/
def Board.revealCell (b : Board) (r c : Nat) : Board :=
  { b with revealed := b.revealed.set (b.idx r c) true }

/-- Modelled from the spec: the iterative work-list flood fill over
zero-adjacency cells (spec §4.1 Reveal, §9).  The work list holds hidden
non-mine candidates; revealing a zero-adjacency cell enqueues its hidden
non-mine neighbors. -/
def Board.floodAux : Nat → Board → List (Nat × Nat) → Board
  | 0, b, _ => b
  | _ + 1, b, [] => b
  | fuel + 1, b, (r, c) :: rest =>
    if b.revealedAt r c then Board.floodAux fuel b rest
    else
      let b2 := b.revealCell r c
      if b2.adjCount r c == 0 then
        Board.floodAux fuel b2
          (((b2.neighbors r c).filter fun p =>
            !(b2.mineAt p.1 p.2) && !(b2.revealedAt p.1 p.2)) ++ rest)
      else Board.floodAux fuel b2 rest

/-- Fuel ample for the flood fill: every work-list pop either discards or
reveals, and each reveal enqueues at most eight cells. -/
def Board.fuel (b : Board) : Nat := 9 * (b.width * b.height) + 1

/-- Modelled from the spec: `Reveal(row, col)` (spec §4.1).  Out-of-grid
coordinates fail with `OutOfBounds`; an already-revealed cell is a no-op;
revealing a mine reveals only that cell; otherwise the zero-adjacency
cascade runs. -/
def Board.reveal (b : Board) (r c : Nat) : Except MErr Board :=
  if r < b.height && c < b.width then
    if b.revealedAt r c then .ok b
    else if b.mineAt r c then .ok (b.revealCell r c)
    else .ok (b.floodAux b.fuel [(r, c)])
  else .error .outOfBounds

/-- Modelled from the spec: `Outcome()` (spec §4.1), in the integer coding
the orchestrator consumes (`__init__.py` `_run_turn`): `-1` Lost if any mine
cell is Revealed, else `1` Won if all non-mines are Revealed, else `0`. -/
def Board.result (b : Board) : Int :=
  if (List.range (b.width * b.height)).any
      (fun i => b.mines.getD i false && b.revealed.getD i false) then -1
  else if (List.range (b.width * b.height)).all
      (fun i => b.mines.getD i false || b.revealed.getD i false) then 1
  else 0

/-- Modelled from the spec: `Score(now)` (spec §4.1), a tunable non-negative
function of elapsed time, monotonically non-increasing in it; the scaling
constant is an implementation choice. -/
def Board.get_score (b : Board) (now : Nat) : Nat :=
  1000 - (now - b.startedAt)

/-- One cell of the mid-game rendering: revealed non-mines show their
adjacency digit, revealed mines a marker, hidden cells a uniform marker. -/
def Board.cellChar (b : Board) (r c : Nat) : Char :=
  if b.revealedAt r c then
    if b.mineAt r c then '*' else Char.ofNat (48 + b.adjCount r c)
  else '#'

/-- Modelled from the spec: `RenderCurrent()` (spec §4.1), the `str(board)`
the orchestrator sends mid-game; a pure function of cell states. -/
def Board.render (b : Board) : String :=
  String.mk ((List.range b.height).flatMap fun r =>
    ((List.range b.width).map fun c => b.cellChar r c) ++ ['\n'])

/-- One cell of the full-disclosure rendering: mines are always shown, the
marker differing cosmetically between the won and lost outcome. -/
def Board.revealChar (b : Board) (result : Int) (r c : Nat) : Char :=
  if b.mineAt r c then (if result = 1 then 'F' else '*')
  else Char.ofNat (48 + b.adjCount r c)

/-- Modelled from the spec: `RenderFull(outcome)` (spec §4.1), the
`board.reveal(result)` text used only at game end. -/
def Board.revealRender (b : Board) (result : Int) : String :=
  String.mk ((List.range b.height).flatMap fun r =>
    ((List.range b.width).map fun c => b.revealChar result r c) ++ ['\n'])

/-- Lower-cased code point of an ASCII letter. -/
def toLowerNat (c : Char) : Nat :=
  if 65 ≤ c.toNat ∧ c.toNat ≤ 90 then c.toNat + 32 else c.toNat

/-- Column selected by the alphabetic character (case-insensitive, `a` = 0). -/
def letterCol (c : Char) : Nat := toLowerNat c - 97

/-- Numeric value of the digit character; it selects the row, 1-based
(spec §8: `"A9"` on an 8-row board is out of bounds). -/
def digitVal (c : Char) : Nat := c.toNat - 48

/-- Modelled from the spec: bounds validation of a parsed coordinate,
letter `l` selecting the column and digit `d` the 1-based row (spec §4.2). -/
def Board.parseCoord (b : Board) (l d : Char) : Except MErr (Nat × Nat) :=
  if 1 ≤ digitVal d ∧ digitVal d ≤ b.height ∧ letterCol l < b.width then
    .ok (digitVal d - 1, letterCol l)
  else .error .invalidToken

/-- Modelled from the spec: `Parse(token)` (spec §4.2).  Exactly two
characters, one letter and one digit in either order; anything else, or an
out-of-grid coordinate, fails with `InvalidToken`. -/
def Board.parseToken (b : Board) : List Char → Except MErr (Nat × Nat)
  | [c1, c2] =>
    if pyAlphaC c1 && pyDigitC c2 then b.parseCoord c1 c2
    else if pyDigitC c1 && pyAlphaC c2 then b.parseCoord c2 c1
    else .error .invalidToken
  | _ => .error .invalidToken

/-- Modelled from the spec: `board.move(text)` as used by `filter_messages`:
parse the token, then reveal the coordinate; failures are the `ValueError`
the caller catches. -/
def Board.move (b : Board) (t : List Char) : Except MErr Board :=
  match b.parseToken t with
  | .error e => .error e
  | .ok (r, c) => b.reveal r c

/-- Encoding of one cell in the serialized form: bit 0 mine, bit 1 revealed. -/
def encodeCell (m r : Bool) : Nat := (cond m 1 0) + 2 * (cond r 1 0)

/-- Modelled from the spec: `Export()` (spec §4.1), encoding dimensions,
start timestamp, mine positions and per-cell reveal state. -/
def Board.exportSer (b : Board) : List Nat :=
  b.width :: b.height :: b.startedAt :: List.zipWith encodeCell b.mines b.revealed

/-- Modelled from the spec: `Import(serialized)` (spec §4.1), failing with
`CorruptState` (here `none`) on malformed input. -/
def Board.importSer : List Nat → Option Board
  | w :: h :: t :: cells =>
    if cells.length = w * h ∧ cells.all (· < 4) then
      some ⟨w, h, cells.map (fun n => n % 2 == 1), cells.map (fun n => n / 2 == 1), t⟩
    else none
  | _ => none

/-- Modelled from the spec: the game record the storage collaborator keeps
per player (spec §3): address, group-chat id, nullable board serialization,
high score. -/
structure GameRecord where
  addr : String
  gid : Nat
  board : Option (List Nat)
  score : Nat
deriving DecidableEq, Repr

/-- The storage operations the orchestrator issues during a turn
(`db.set_game` writes board and score, `db.set_board` only the board). -/
inductive DbWrite where
  | setGame (addr : String) (board : Option (List Nat)) (score : Nat)
  | setBoard (addr : String) (board : Option (List Nat))
deriving DecidableEq, Repr

/-- Effect of one storage write on a player's game record. -/
def applyWrite (g : GameRecord) : DbWrite → GameRecord
  | .setGame _ bd sc => { g with board := bd, score := sc }
  | .setBoard _ bd => { g with board := bd }

/-- Effect of a write trace on a player's game record. -/
def applyWrites (g : GameRecord) : List DbWrite → GameRecord
  | [] => g
  | w :: ws => applyWrites (applyWrite g w) ws

/-- Whether a write touches the stored score (only `set_game` does). -/
def writesScore : DbWrite → Bool
  | .setGame _ _ _ => true
  | .setBoard _ _ => false

/-- Whether some write in a trace touches the stored score. -/
def hasScoreWrite (ws : List DbWrite) : Bool := ws.any writesScore

/-- Whether a write clears the stored board serialization to null. -/
def clearsBoard : DbWrite → Bool
  | .setGame _ bd _ => bd.isNone
  | .setBoard _ bd => bd.isNone

/-- Python truthiness of the nullable board column: `None` and the empty
string are falsy. -/
def boardFalsy : Option (List Nat) → Bool
  | none => true
  | some s => s.isEmpty

/-- The prompt used both by `_run_turn` and `mines_repeat` when there is no
active game. -/
def noGameText : String := "No active game, send /mines_play to start playing."

/-- The score update of `_run_turn` (`__init__.py` lines 184–185): the fresh
score stands unless it fails to exceed the stored one, in which case the
stored score is bumped by one. -/
def newHigh (score old : Nat) : Nat := if score ≤ old then old + 1 else score

/-- Translation of `_run_turn` (`__init__.py` lines 173–194) on the game
record the `gid` lookup returns: yields the reply text and the trace of
storage writes, or `none` when deserialization raises (propagated
`ValueError`). -/
def runTurn (g : GameRecord) (now : Nat) : Option (String × List DbWrite) :=
  match g.board with
  | none => some (noGameText, [])
  | some s =>
    if s.isEmpty then some (noGameText, [])
    else
      match Board.importSer s with
      | none => none
      | some b =>
        let result := b.result
        if result = 1 then
          let score := newHigh (b.get_score now) g.score
          some ("🏆 Game over. You Win!!!\n" ++ "New High Score: " ++ toString score
              ++ "\n📊 /mines_top" ++ "\n\n" ++ b.revealRender result
              ++ "\n▶️ Play again? /mines_play",
            [.setGame g.addr none score])
        else if result = -1 then
          some ("☠️ Game over. You died.\n📊 /mines_top" ++ "\n\n" ++ b.revealRender result
              ++ "\n▶️ Play again? /mines_play",
            [.setBoard g.addr none])
        else some (b.render, [])

/-- The gate of `filter_messages` (`__init__.py` lines 44–50), in positive
form: the message is treated as a candidate move iff this holds. -/
def moveGuard (text : List Char) : Bool :=
  (text.length == 2) && pyIsAlnum text && !(pyIsAlpha text) && !(pyIsDigit text)

/-- Translation of `filter_messages` (`__init__.py` lines 41–63) given the
game record the chat-id lookup returns: yields the optional reply and the
trace of storage writes.  A `ValueError` from deserialization or from the
move is answered with the invalid-move text. -/
def filterMessages (gq : Option GameRecord) (text : List Char) (now : Nat) :
    Option String × List DbWrite :=
  if !(moveGuard text) then (none, [])
  else
    match gq with
    | none => (none, [])
    | some g =>
      match g.board with
      | none => (none, [])
      | some s =>
        match Board.importSer s with
        | none => (some "❌ Invalid move!", [])
        | some b =>
          match b.move text with
          | .error _ => (some "❌ Invalid move!", [])
          | .ok b2 =>
            match runTurn { g with board := some b2.exportSer } now with
            | none => (some "❌ Invalid move!", [.setBoard g.addr (some b2.exportSer)])
            | some (reply, ws) =>
              (some reply, .setBoard g.addr (some b2.exportSer) :: ws)

/-- Translation of `mines_repeat` (`__init__.py` lines 96–110) given the
game record the sender-address lookup returns. -/
def minesRepeat (gq : Option GameRecord) (now : Nat) : Option (String × List DbWrite) :=
  match gq with
  | none => some (noGameText, [])
  | some g => runTurn g now

/-- Effects `mines_play` can have beyond plain storage writes. -/
inductive Effect where
  | createGroup (title : String) (member : String)
  | addGame (addr : String) (gid : Nat) (board : List Nat)
  | dbWrite (w : DbWrite)
deriving DecidableEq, Repr

/-- The nick prompt of `mines_play` (`__init__.py` lines 74–75). -/
def nickPromptText : String :=
  "You need to set a nick before start playing, send /mines_nick Your Nick"

/-- Python truthiness of the nick lookup. -/
def nickFalsy : Option String → Bool
  | none => true
  | some s => s.isEmpty

/-- Translation of `mines_play` (`__init__.py` lines 66–93) given the nick
and game-record lookups for the sender; `newGid` stands for the id of the
freshly created group and `fresh` for the randomly mined `Board()` (both
external inputs).  A brand-new game record starts with score 0 (modelled
from the spec scoreboard row). -/
def minesPlay (nickq : Option String) (gq : Option GameRecord)
    (playerAddr playerName : String) (newGid : Nat) (fresh : Board) (now : Nat) :
    Option (String × List Effect) :=
  if nickFalsy nickq then some (nickPromptText, [])
  else
    match gq with
    | none =>
      match runTurn ⟨playerAddr, newGid, some fresh.exportSer, 0⟩ now with
      | none => none
      | some (turnText, ws) =>
        some ("Hello " ++ playerName ++ ", in this group you can play Minesweeper.\n\n"
            ++ turnText,
          [.createGroup "💣 Minesweeper" playerAddr,
           .addGame playerAddr newGid fresh.exportSer] ++ ws.map .dbWrite)
    | some g =>
      match runTurn { g with board := some fresh.exportSer } now with
      | none => none
      | some (turnText, ws) =>
        some ("Game started!\n\n" ++ turnText,
          .dbWrite (.setBoard g.addr (some fresh.exportSer)) :: ws.map .dbWrite)

/-! ## Helper lemmas -/

/-- A serialization that imports successfully is nonempty. -/
theorem importSer_isEmpty_false (s : List Nat) (b : Board)
    (h : Board.importSer s = some b) : s.isEmpty = false := by
  cases s with
  | nil => simp [Board.importSer] at h
  | cons x xs => rfl

/-- Decoding inverts the per-cell encoding along a whole zipped list. -/
theorem zip_decode (ms rs : List Bool) (h : ms.length = rs.length) :
    (List.zipWith encodeCell ms rs).map (fun n => n % 2 == 1) = ms ∧
    (List.zipWith encodeCell ms rs).map (fun n => n / 2 == 1) = rs ∧
    (List.zipWith encodeCell ms rs).all (· < 4) = true := by
  induction ms generalizing rs with
  | nil =>
    cases rs with
    | nil => simp
    | cons r rs => simp at h
  | cons m ms ih =>
    cases rs with
    | nil => simp at h
    | cons r rs =>
      obtain ⟨ih1, ih2, ih3⟩ := ih rs (by simpa using h)
      refine ⟨?_, ?_, ?_⟩ <;>
        cases m <;> cases r <;> simp [encodeCell, ih1, ih2, ih3]

/-- An ASCII letter is not an ASCII digit. -/
theorem pyAlphaC_not_pyDigitC (c : Char) (h : pyAlphaC c = true) :
    pyDigitC c = false := by
  simp only [pyAlphaC, Bool.or_eq_true, Bool.and_eq_true, decide_eq_true_eq] at h
  simp only [pyDigitC, Bool.and_eq_false_iff, decide_eq_false_iff_not, not_le]
  omega

/-! ## Claims -/

/-- C2: an incoming message is processed as a candidate move only if it is
exactly two characters long, entirely alphanumeric, not entirely alphabetic
and not entirely numeric; any other message is ignored, with no reply and
no storage write. -/
theorem claim_C2 (gq : Option GameRecord) (text : List Char) (now : Nat)
    (h : ¬(text.length = 2 ∧ pyIsAlnum text = true ∧
      pyIsAlpha text = false ∧ pyIsDigit text = false)) :
    filterMessages gq text now = (none, []) := by
  have hg : moveGuard text = false := by
    by_contra hc
    rw [Bool.not_eq_false] at hc
    simp only [moveGuard, Bool.and_eq_true, Bool.not_eq_true', beq_iff_eq] at hc
    exact h ⟨hc.1.1.1, hc.1.1.2, hc.1.2, hc.2⟩
  simp [filterMessages, hg]

/-- Witness for C2 at the all-alphabetic two-character message "ab". -/
theorem claim_C2_witness :
    filterMessages none ['a', 'b'] 0 = (none, []) :=
  claim_C2 none ['a', 'b'] 0 (by decide)

/-- C3: when deserializing the board or applying the move token fails with
the invalid-move `ValueError`, the caller is answered "❌ Invalid move!" and
no storage write happens, so the persisted board serialization is
unchanged. -/
theorem claim_C3 (g : GameRecord) (s : List Nat) (b : Board) (t : List Char)
    (now : Nat) (e : MErr) (hg : moveGuard t = true) (hb : g.board = some s)
    (himp : Board.importSer s = some b) (hmv : b.move t = .error e) :
    filterMessages (some g) t now = (some "❌ Invalid move!", []) := by
  simp [filterMessages, hg, hb, himp, hmv]

/-- Witness for C3: on a 2×1 board the token "z1" addresses a column outside
the grid, so the move fails and the reply is the invalid-move text with no
writes. -/
theorem claim_C3_witness :
    filterMessages (some ⟨"p", 7, some [2, 1, 0, 1, 0], 5⟩) ['z', '1'] 0
      = (some "❌ Invalid move!", []) :=
  claim_C3 ⟨"p", 7, some [2, 1, 0, 1, 0], 5⟩ [2, 1, 0, 1, 0]
    ⟨2, 1, [true, false], [false, false], 0⟩ ['z', '1'] 0 .invalidToken
    (by decide) rfl (by decide) rfl

/-- C9: `mines_play` for a player whose nick lookup is falsy only replies
with the set-a-nick prompt: no group is created, no game record is added,
and no board is written. -/
theorem claim_C9 (nickq : Option String) (gq : Option GameRecord)
    (addr name : String) (newGid : Nat) (fresh : Board) (now : Nat)
    (h : nickFalsy nickq = true) :
    minesPlay nickq gq addr name newGid fresh now = some (nickPromptText, []) := by
  simp [minesPlay, h]

/-- Witness for C9: a player with no registered nick. -/
theorem claim_C9_witness :
    minesPlay none none "p" "Pete" 7 ⟨1, 1, [false], [false], 0⟩ 0
      = some (nickPromptText, []) :=
  claim_C9 none none "p" "Pete" 7 ⟨1, 1, [false], [false], 0⟩ 0 rfl

/-- C10: when the loaded board's result is neither win nor loss, `_run_turn`
performs no storage write and returns exactly the current rendering, so
`mines_repeat` on an in-progress game leaves the persisted record — board
serialization, score and all — unchanged. -/
theorem claim_C10 (g : GameRecord) (s : List Nat) (b : Board) (now : Nat)
    (hb : g.board = some s) (himp : Board.importSer s = some b)
    (h1 : b.result ≠ 1) (h2 : b.result ≠ -1) :
    runTurn g now = some (b.render, []) ∧
    minesRepeat (some g) now = some (b.render, []) ∧
    ((runTurn g now).map fun p => applyWrites g p.2) = some g := by
  have hne := importSer_isEmpty_false s b himp
  have hrun : runTurn g now = some (b.render, []) := by
    simp [runTurn, hb, hne, himp, h1, h2]
  exact ⟨hrun, by simp [minesRepeat, hrun], by simp [hrun, applyWrites]⟩

/-- Witness for C10: a 2×1 in-progress board (one mine, nothing revealed). -/
theorem claim_C10_witness :
    runTurn ⟨"p", 7, some [2, 1, 0, 1, 0], 5⟩ 0
      = some (Board.render ⟨2, 1, [true, false], [false, false], 0⟩, []) ∧
    minesRepeat (some ⟨"p", 7, some [2, 1, 0, 1, 0], 5⟩) 0
      = some (Board.render ⟨2, 1, [true, false], [false, false], 0⟩, []) ∧
    ((runTurn ⟨"p", 7, some [2, 1, 0, 1, 0], 5⟩ 0).map
      fun p => applyWrites ⟨"p", 7, some [2, 1, 0, 1, 0], 5⟩ p.2)
      = some ⟨"p", 7, some [2, 1, 0, 1, 0], 5⟩ :=
  claim_C10 ⟨"p", 7, some [2, 1, 0, 1, 0], 5⟩ [2, 1, 0, 1, 0]
    ⟨2, 1, [true, false], [false, false], 0⟩ 0 rfl (by decide) (by decide) (by decide)

/-- C1: on a win, `_run_turn` issues exactly one scoreboard write; the score
it persists is the freshly computed one when that exceeds the stored high
score, and exactly the stored high score plus one otherwise, so the
persisted high score strictly increases on every win. -/
theorem claim_C1 (g : GameRecord) (s : List Nat) (b : Board) (now : Nat)
    (hb : g.board = some s) (himp : Board.importSer s = some b)
    (hwin : b.result = 1) :
    (runTurn g now).map Prod.snd
      = some [DbWrite.setGame g.addr none (newHigh (b.get_score now) g.score)] ∧
    (g.score < b.get_score now → newHigh (b.get_score now) g.score = b.get_score now) ∧
    (b.get_score now ≤ g.score → newHigh (b.get_score now) g.score = g.score + 1) ∧
    g.score < newHigh (b.get_score now) g.score := by
  have hne := importSer_isEmpty_false s b himp
  refine ⟨?_, ?_, ?_, ?_⟩
  · simp [runTurn, hb, hne, himp, hwin]
  · intro h; rw [newHigh, if_neg (by omega)]
  · intro h; rw [newHigh, if_pos h]
  · rw [newHigh]; split <;> omega

/-- Witness for C1: a solved 1×1 mine-free board with stored high score 5;
the fresh score 1000 exceeds it and is persisted. -/
theorem claim_C1_witness :
    (runTurn ⟨"p", 7, some [1, 1, 0, 2], 5⟩ 0).map Prod.snd
      = some [DbWrite.setGame "p" none (newHigh 1000 5)] ∧
    (5 < 1000 → newHigh 1000 5 = 1000) ∧
    (1000 ≤ 5 → newHigh 1000 5 = 5 + 1) ∧
    5 < newHigh 1000 5 :=
  claim_C1 ⟨"p", 7, some [1, 1, 0, 2], 5⟩ [1, 1, 0, 2]
    ⟨1, 1, [false], [true], 0⟩ 0 rfl (by decide) (by decide)

/-- C4 counterexample: a lost 2×1 game (mine revealed, stored high score 5).
The terminal transition clears the board serialization, but its only write
is `set_board`, which touches no score — contradicting the claim that the
final score is written into the scoreboard record on every terminal
outcome. -/
theorem claim_C4_counterexample :
    Board.importSer [2, 1, 0, 3, 0] = some ⟨2, 1, [true, false], [true, false], 0⟩ ∧
    Board.result ⟨2, 1, [true, false], [true, false], 0⟩ = -1 ∧
    (runTurn ⟨"p", 7, some [2, 1, 0, 3, 0], 5⟩ 0).map Prod.snd
      = some [DbWrite.setBoard "p" none] ∧
    hasScoreWrite [DbWrite.setBoard "p" none] = false := by
  refine ⟨by decide, by decide, ?_, by decide⟩
  rfl

/-- C4 (amended): on a terminal outcome the persisted board serialization is
cleared to null; on Won the final score is written into the scoreboard
record as part of that transition, while on Lost only the board is cleared
and the stored score is left unchanged. -/
theorem claim_C4 (g : GameRecord) (s : List Nat) (b : Board) (now : Nat)
    (hb : g.board = some s) (himp : Board.importSer s = some b) :
    (b.result = 1 →
      (runTurn g now).map Prod.snd
        = some [DbWrite.setGame g.addr none (newHigh (b.get_score now) g.score)] ∧
      ((runTurn g now).map fun p => (applyWrites g p.2).board) = some none) ∧
    (b.result = -1 →
      (runTurn g now).map Prod.snd = some [DbWrite.setBoard g.addr none] ∧
      ((runTurn g now).map fun p => (applyWrites g p.2).board) = some none ∧
      ((runTurn g now).map fun p => (applyWrites g p.2).score) = some g.score) := by
  have hne := importSer_isEmpty_false s b himp
  constructor
  · intro hwin
    have : runTurn g now = some (("🏆 Game over. You Win!!!\n" ++ "New High Score: "
        ++ toString (newHigh (b.get_score now) g.score) ++ "\n📊 /mines_top" ++ "\n\n"
        ++ b.revealRender b.result ++ "\n▶️ Play again? /mines_play"),
        [.setGame g.addr none (newHigh (b.get_score now) g.score)]) := by
      simp [runTurn, hb, hne, himp, hwin]
    simp [this, applyWrites, applyWrite]
  · intro hlost
    have h1 : b.result ≠ 1 := by rw [hlost]; decide
    have : runTurn g now = some (("☠️ Game over. You died.\n📊 /mines_top" ++ "\n\n"
        ++ b.revealRender b.result ++ "\n▶️ Play again? /mines_play"),
        [.setBoard g.addr none]) := by
      simp [runTurn, hb, hne, himp, h1, hlost]
    simp [this, applyWrites, applyWrite]

/-- Witness for C4 (amended), at the same won and lost records used above. -/
theorem claim_C4_witness :
    ((Board.result (⟨1, 1, [false], [true], 0⟩ : Board) = 1 →
      (runTurn ⟨"p", 7, some [1, 1, 0, 2], 5⟩ 0).map Prod.snd
        = some [DbWrite.setGame "p" none (newHigh 1000 5)] ∧
      ((runTurn ⟨"p", 7, some [1, 1, 0, 2], 5⟩ 0).map
        fun p => (applyWrites ⟨"p", 7, some [1, 1, 0, 2], 5⟩ p.2).board) = some none) ∧
    (Board.result (⟨1, 1, [false], [true], 0⟩ : Board) = -1 →
      (runTurn ⟨"p", 7, some [1, 1, 0, 2], 5⟩ 0).map Prod.snd
        = some [DbWrite.setBoard "p" none] ∧
      ((runTurn ⟨"p", 7, some [1, 1, 0, 2], 5⟩ 0).map
        fun p => (applyWrites ⟨"p", 7, some [1, 1, 0, 2], 5⟩ p.2).board) = some none ∧
      ((runTurn ⟨"p", 7, some [1, 1, 0, 2], 5⟩ 0).map
        fun p => (applyWrites ⟨"p", 7, some [1, 1, 0, 2], 5⟩ p.2).score) = some 5)) :=
  claim_C4 ⟨"p", 7, some [1, 1, 0, 2], 5⟩ [1, 1, 0, 2]
    ⟨1, 1, [false], [true], 0⟩ 0 rfl (by decide)

/-- C7 counterexample: a well-formed move token sent in a game whose stored
board is null is ignored silently — no write, and in particular no reply
prompting to start a game, contradicting the claim that the situation is
surfaced to the caller for move requests too. -/
theorem claim_C7_counterexample :
    moveGuard ['a', '1'] = true ∧
    filterMessages (some ⟨"p", 7, none, 5⟩) ['a', '1'] 0 = (none, []) ∧
    (filterMessages (some ⟨"p", 7, none, 5⟩) ['a', '1'] 0).1 ≠ some noGameText := by
  refine ⟨by decide, rfl, by decide⟩

/-- C7 (amended): with no active board no game state is ever modified; a
board-repeat request (and a `_run_turn` on a null board) is answered with
the prompt to start a game, while a move request is ignored silently with
no reply at all. -/
theorem claim_C7 (g : GameRecord) (t : List Char) (now : Nat)
    (hb : g.board = none) :
    filterMessages (some g) t now = (none, []) ∧
    filterMessages none t now = (none, []) ∧
    minesRepeat none now = some (noGameText, []) ∧
    minesRepeat (some g) now = some (noGameText, []) := by
  refine ⟨?_, ?_, rfl, ?_⟩
  · cases hmg : moveGuard t <;> simp [filterMessages, hmg, hb]
  · cases hmg : moveGuard t <;> simp [filterMessages, hmg]
  · simp [minesRepeat, runTurn, hb]

/-- Witness for C7 (amended), at a concrete null-board record and token. -/
theorem claim_C7_witness :
    filterMessages (some ⟨"q", 9, none, 3⟩) ['b', '2'] 4 = (none, []) ∧
    filterMessages none ['b', '2'] 4 = (none, []) ∧
    minesRepeat none 4 = some (noGameText, []) ∧
    minesRepeat (some ⟨"q", 9, none, 3⟩) 4 = some (noGameText, []) :=
  claim_C7 ⟨"q", 9, none, 3⟩ ['b', '2'] 4 rfl

/-- C5: for every well-formed board, importing its exported serialization
reconstructs the very same board — identical cell states, mine layout,
derived adjacency counts and start timestamp — hence identical results for
every subsequent operation; in particular outcome and rendering agree. -/
theorem claim_C5 (b : Board) (h : b.WF) :
    Board.importSer b.exportSer = some b ∧
    (Board.importSer b.exportSer).map Board.result = some b.result ∧
    (Board.importSer b.exportSer).map Board.render = some b.render := by
  obtain ⟨h1, h2⟩ := h
  obtain ⟨d1, d2, d3⟩ := zip_decode b.mines b.revealed (h1.trans h2.symm)
  have hlen : (List.zipWith encodeCell b.mines b.revealed).length
      = b.width * b.height := by
    rw [List.length_zipWith, h1, h2, Nat.min_self]
  have hrt : Board.importSer b.exportSer = some b := by
    simp [Board.exportSer, Board.importSer, hlen, d3, d1, d2]
  exact ⟨hrt, by rw [hrt]; rfl, by rw [hrt]; rfl⟩

/-- Witness for C5: a concrete 2×1 board, one mine, nothing revealed. -/
theorem claim_C5_witness :
    Board.importSer (Board.exportSer ⟨2, 1, [true, false], [false, false], 3⟩)
      = some ⟨2, 1, [true, false], [false, false], 3⟩ ∧
    (Board.importSer (Board.exportSer ⟨2, 1, [true, false], [false, false], 3⟩)).map
      Board.result = some (Board.result ⟨2, 1, [true, false], [false, false], 3⟩) ∧
    (Board.importSer (Board.exportSer ⟨2, 1, [true, false], [false, false], 3⟩)).map
      Board.render = some (Board.render ⟨2, 1, [true, false], [false, false], 3⟩) :=
  claim_C5 ⟨2, 1, [true, false], [false, false], 3⟩ (by decide)

/-- C6: after a valid turn, `_run_turn` replies with the mid-game rendering
of the current board when the outcome is in progress, and otherwise with an
end-of-game summary: the full-disclosure rendering together with the score
line (the new high score on a win, the scoreboard pointer on a loss). -/
theorem claim_C6 (g : GameRecord) (s : List Nat) (b : Board) (now : Nat)
    (hb : g.board = some s) (himp : Board.importSer s = some b) :
    (b.result ≠ 1 → b.result ≠ -1 → runTurn g now = some (b.render, [])) ∧
    (b.result = 1 →
      (runTurn g now).map Prod.fst
        = some ("🏆 Game over. You Win!!!\n" ++ "New High Score: "
            ++ toString (newHigh (b.get_score now) g.score) ++ "\n📊 /mines_top"
            ++ "\n\n" ++ b.revealRender 1 ++ "\n▶️ Play again? /mines_play")) ∧
    (b.result = -1 →
      (runTurn g now).map Prod.fst
        = some ("☠️ Game over. You died.\n📊 /mines_top" ++ "\n\n"
            ++ b.revealRender (-1) ++ "\n▶️ Play again? /mines_play")) := by
  have hne := importSer_isEmpty_false s b himp
  refine ⟨?_, ?_, ?_⟩
  · intro h1 h2
    simp [runTurn, hb, hne, himp, h1, h2]
  · intro hwin
    simp [runTurn, hb, hne, himp, hwin]
  · intro hlost
    have h1 : b.result ≠ 1 := by rw [hlost]; decide
    simp [runTurn, hb, hne, himp, h1, hlost]

/-- Witness for C6: the in-progress, won and lost branches at concrete
records (2×1 untouched board; solved 1×1 board; 2×1 board with its mine
revealed). -/
theorem claim_C6_witness :
    runTurn ⟨"p", 7, some [2, 1, 0, 1, 0], 5⟩ 0
      = some (Board.render ⟨2, 1, [true, false], [false, false], 0⟩, []) ∧
    (runTurn ⟨"p", 7, some [1, 1, 0, 2], 5⟩ 0).map Prod.fst
      = some ("🏆 Game over. You Win!!!\n" ++ "New High Score: "
          ++ toString (newHigh 1000 5) ++ "\n📊 /mines_top" ++ "\n\n"
          ++ Board.revealRender ⟨1, 1, [false], [true], 0⟩ 1
          ++ "\n▶️ Play again? /mines_play") ∧
    (runTurn ⟨"p", 7, some [2, 1, 0, 3, 0], 5⟩ 0).map Prod.fst
      = some ("☠️ Game over. You died.\n📊 /mines_top" ++ "\n\n"
          ++ Board.revealRender ⟨2, 1, [true, false], [true, false], 0⟩ (-1)
          ++ "\n▶️ Play again? /mines_play") :=
  ⟨(claim_C6 ⟨"p", 7, some [2, 1, 0, 1, 0], 5⟩ [2, 1, 0, 1, 0]
      ⟨2, 1, [true, false], [false, false], 0⟩ 0 rfl (by decide)).1
      (by decide) (by decide),
   (claim_C6 ⟨"p", 7, some [1, 1, 0, 2], 5⟩ [1, 1, 0, 2]
      ⟨1, 1, [false], [true], 0⟩ 0 rfl (by decide)).2.1 (by decide),
   (claim_C6 ⟨"p", 7, some [2, 1, 0, 3, 0], 5⟩ [2, 1, 0, 3, 0]
      ⟨2, 1, [true, false], [true, false], 0⟩ 0 rfl (by decide)).2.2 (by decide)⟩

/-- C8: the move parser accepts a letter–digit token in either character
order — both orders parse to the same coordinate, namely the 1-based row
named by the digit and the column named by the letter when that coordinate
is on the grid — and a token addressing a coordinate outside the grid
fails with the invalid-move error. -/
theorem claim_C8 (b : Board) (l d : Char)
    (hl : pyAlphaC l = true) (hd : pyDigitC d = true) :
    b.parseToken [l, d] = b.parseToken [d, l] ∧
    (1 ≤ digitVal d → digitVal d ≤ b.height → letterCol l < b.width →
      b.parseToken [l, d] = .ok (digitVal d - 1, letterCol l)) ∧
    (¬(1 ≤ digitVal d ∧ digitVal d ≤ b.height ∧ letterCol l < b.width) →
      b.parseToken [l, d] = .error .invalidToken) := by
  have hld : pyDigitC l = false := pyAlphaC_not_pyDigitC l hl
  have hda : pyAlphaC d = false := by
    by_contra hc
    rw [Bool.not_eq_false] at hc
    rw [pyAlphaC_not_pyDigitC d hc] at hd
    exact Bool.false_ne_true hd
  have hfwd : b.parseToken [l, d] = b.parseCoord l d := by
    simp [Board.parseToken, hl, hd]
  refine ⟨?_, ?_, ?_⟩
  · rw [hfwd]
    simp [Board.parseToken, hda, hld, hl, hd]
  · intro r1 r2 r3
    rw [hfwd, Board.parseCoord, if_pos ⟨r1, r2, r3⟩]
  · intro hno
    rw [hfwd, Board.parseCoord, if_neg hno]

/-- Witness for C8: on an 8×8 board, "A1" and "1A" parse to the same
coordinate (0, 0). -/
theorem claim_C8_witness :
    Board.parseToken ⟨8, 8, List.replicate 64 false, List.replicate 64 false, 0⟩
        ['A', '1']
      = Board.parseToken ⟨8, 8, List.replicate 64 false, List.replicate 64 false, 0⟩
        ['1', 'A'] ∧
    (1 ≤ digitVal '1' → digitVal '1' ≤ 8 → letterCol 'A' < 8 →
      Board.parseToken ⟨8, 8, List.replicate 64 false, List.replicate 64 false, 0⟩
        ['A', '1'] = .ok (digitVal '1' - 1, letterCol 'A')) ∧
    (¬(1 ≤ digitVal '1' ∧ digitVal '1' ≤ 8 ∧ letterCol 'A' < 8) →
      Board.parseToken ⟨8, 8, List.replicate 64 false, List.replicate 64 false, 0⟩
        ['A', '1'] = .error .invalidToken) :=
  claim_C8 ⟨8, 8, List.replicate 64 false, List.replicate 64 false, 0⟩ 'A' '1'
    (by decide) (by decide)

end Mines
